import Mathlib

/-!
Shallow embedding of the resismart-backend property-management REST service,
restricted to the handlers, model statics and cache interactions that the
verified properties talk about.  Mongo documents become Lean structures,
controller handlers become pure functions on an explicit store/cache state,
and the Express response becomes a value recording the HTTP status and body
fields actually produced by the source.
-/

namespace ResiSmart

/-! ## Generic helpers (JS string / object semantics) -/

/-- Case-insensitive substring test, modelling the `$regex ... $options: 'i'`
match used by every `findWithFilter` free-text clause. -/
def strContainsCI (hay needle : String) : Bool :=
  let h := hay.data.map Char.toLower
  let n := needle.data.map Char.toLower
  (List.range (h.length + 1)).any (fun i => n.isPrefixOf (h.drop i))

structure CacheEntry (α : Type) where
  key : String
  val : α
  ttl : Nat
  deriving Repr, DecidableEq

/-- The key/value cache store, newest entry first. -/
abbrev Cache (α : Type) := List (CacheEntry α)

def getCache {α} (c : Cache α) (k : String) : Option α :=
  (c.find? (fun e => e.key == k)).map (fun e => e.val)

def setCache {α} (c : Cache α) (k : String) (v : α) (ttl : Nat) : Cache α :=
  ⟨k, v, ttl⟩ :: c.filter (fun e => e.key ≠ k)

theorem getCache_setCache_self {α} (c : Cache α) (k : String) (v : α) (ttl : Nat) :
    getCache (setCache c k v ttl) k = some v := by
  simp [getCache, setCache]

/-! ## Property model (`src/models/Property.js`) -/

/-- A `Property` document.  `createdAt` stands for the mongoose timestamp. -/
structure PropertyDoc where
  id : Nat
  tenant : Nat
  name : String
  description : String
  street : String
  city : String
  totalUnits : Nat
  price : Nat
  propertyType : String
  isActive : Bool
  createdAt : Nat
  deriving Repr, DecidableEq

namespace PropertyM

/-- Field access used by equality filters and custom sorts; values are the
string forms in which query parameters arrive. -/
def propField (p : PropertyDoc) : String → Option String
  | "tenant" => some (toString p.tenant)
  | "name" => some p.name
  | "description" => some p.description
  | "address.street" => some p.street
  | "address.city" => some p.city
  | "totalUnits" => some (toString p.totalUnits)
  | "price" => some (toString p.price)
  | "propertyType" => some p.propertyType
  | "isActive" => some (toString p.isActive)
  | _ => none

/-- The `queryObj` test of `Property.findWithFilter`: every equality filter
holds, and when a (non-empty, JS-truthy) free-text term is present it must
match one of name / description / address.street case-insensitively. -/
def matchProperty (query : Option String) (filters : List (String × String))
    (p : PropertyDoc) : Bool :=
  (filters.all (fun kv => propField p kv.1 == some kv.2)) &&
  (match query with
   | none => true
   | some q =>
     if q.isEmpty then true
     else strContainsCI p.name q || strContainsCI p.description q ||
          strContainsCI p.street q)

/-- `.sort(sort)` with the source's default `'-createdAt'`: a leading `-`
sorts descending on the named field, otherwise ascending; unknown fields
leave the order unchanged (comparison always true, sort is stable). -/
def sortLe (sort : Option String) (a b : PropertyDoc) : Bool :=
  let s := sort.getD "-createdAt"
  let (desc, field) :=
    match s.data with
    | '-' :: rest => (true, String.mk rest)
    | _ => (false, s)
  if desc then
    match field with
    | "createdAt" => decide (b.createdAt ≤ a.createdAt)
    | "price" => decide (b.price ≤ a.price)
    | "totalUnits" => decide (b.totalUnits ≤ a.totalUnits)
    | "name" => decide (b.name ≤ a.name)
    | _ => true
  else
    match field with
    | "createdAt" => decide (a.createdAt ≤ b.createdAt)
    | "price" => decide (a.price ≤ b.price)
    | "totalUnits" => decide (a.totalUnits ≤ b.totalUnits)
    | "name" => decide (a.name ≤ b.name)
    | _ => true

end PropertyM

/-- Insertion step for the stable sort used to model `.sort(...)`. -/
def insertBy {α} (le : α → α → Bool) (a : α) : List α → List α
  | [] => [a]
  | b :: bs => if le a b then a :: b :: bs else b :: insertBy le a bs

/-- Stable insertion sort modelling the store's sort stage. -/
def sortBy {α} (le : α → α → Bool) (l : List α) : List α :=
  l.foldr (insertBy le) []

theorem length_insertBy {α} (le : α → α → Bool) (a : α) (l : List α) :
    (insertBy le a l).length = l.length + 1 := by
  induction l with
  | nil => rfl
  | cons b bs ih =>
    by_cases h : le a b = true <;> simp [insertBy, h, ih]

theorem length_sortBy {α} (le : α → α → Bool) (l : List α) :
    (sortBy le l).length = l.length := by
  induction l with
  | nil => rfl
  | cons a l ih => simp [sortBy, List.foldr] at ih ⊢; rw [length_insertBy, ih]

/-- The options object every per-model `findWithFilter` destructures.
`page` and `limit` are the numeric values of the incoming query strings
when present (`page = 1`, `limit = 10` apply only when the parameter is
absent); `filters` is the rest object of equality constraints. -/
structure FilterOptions where
  page : Option Int := none
  limit : Option Nat := none
  sort : Option String := none
  fields : Option String := none
  filters : List (String × String) := []
  deriving Repr, DecidableEq

/-- Pagination block returned by every `findWithFilter`.
`totalPages = Math.ceil(total / limit)`; `none` stands for the non-finite
JS number produced when `limit` is `0`. -/
structure Pagination where
  page : Int
  limit : Nat
  total : Nat
  totalPages : Option Nat
  deriving Repr, DecidableEq

namespace PropertyM

structure FindResult where
  properties : List PropertyDoc
  pagination : Pagination
  deriving Repr, DecidableEq

/-- `Property.findWithFilter` (`src/models/Property.js` 89–132): build the
filter, sort, `skip((page - 1) * limit)`, `limit(limit)`, plus the unbounded
count.  A negative skip is rejected by the store, which surfaces as the
thrown error the handler turns into a 500. -/
def findWithFilter (db : List PropertyDoc) (query : Option String)
    (opts : FilterOptions) : Except String FindResult :=
  let page : Int := opts.page.getD 1
  let limit : Nat := opts.limit.getD 10
  let matched := sortBy (sortLe opts.sort) (db.filter (matchProperty query opts.filters))
  let skip : Int := (page - 1) * (limit : Int)
  if skip < 0 then
    Except.error "skip must not be negative"
  else
    let window := matched.drop skip.toNat
    let docs := if limit = 0 then window else window.take limit
    Except.ok
      { properties := docs
        pagination :=
          { page := page
            limit := limit
            total := matched.length
            totalPages :=
              if limit = 0 then none else some ((matched.length + limit - 1) / limit) } }

end PropertyM

/-- For `1 ≤ l`, the value `(T + l - 1) / l` computed by the source's
`Math.ceil(total / limit)` is exactly the ceiling of `T / l`: it is the
unique `q` with `T ≤ l * q` and `l * q < T + l`. -/
theorem ceil_div_spec (T l : Nat) (hl : 1 ≤ l) :
    T ≤ l * ((T + l - 1) / l) ∧ l * ((T + l - 1) / l) < T + l := by
  have hmod := Nat.mod_add_div (T + l - 1) l
  have hlt : (T + l - 1) % l < l := Nat.mod_lt _ hl
  generalize hx : l * ((T + l - 1) / l) = x at hmod ⊢
  generalize hr : (T + l - 1) % l = r at hmod hlt
  omega

namespace PropertyM

/-- C7: for every list request with a valid page (≥ 1, or absent and
defaulted to 1) and valid page size (≥ 1, or absent and defaulted to 10),
`findWithFilter` succeeds, its reported `total` is the count of all
documents matching the same filter independent of the page window, the
returned data array has length at most `limit`, and `totalPages` is exactly
the ceiling of `total / limit` (characterised by
`total ≤ limit * totalPages < total + limit`). -/
theorem findWithFilter_pagination_spec (db : List PropertyDoc)
    (query : Option String) (opts : FilterOptions)
    (hp : 1 ≤ opts.page.getD 1) (hl : 1 ≤ opts.limit.getD 10) :
    ∃ r, findWithFilter db query opts = Except.ok r ∧
      r.pagination.total = (db.filter (matchProperty query opts.filters)).length ∧
      r.pagination.limit = opts.limit.getD 10 ∧
      r.properties.length ≤ opts.limit.getD 10 ∧
      ∃ tp, r.pagination.totalPages = some tp ∧
        r.pagination.total ≤ (opts.limit.getD 10) * tp ∧
        (opts.limit.getD 10) * tp < r.pagination.total + opts.limit.getD 10 := by
  have hskip : ¬ ((opts.page.getD 1 - 1) * ((opts.limit.getD 10 : Nat) : Int) < 0) := by
    have h1 : (0 : Int) ≤ opts.page.getD 1 - 1 := by omega
    have h2 : (0 : Int) ≤ ((opts.limit.getD 10 : Nat) : Int) := Int.ofNat_nonneg _
    exact not_lt.mpr (mul_nonneg h1 h2)
  have hl0 : opts.limit.getD 10 ≠ 0 := by omega
  obtain ⟨r, hr⟩ : ∃ r, findWithFilter db query opts = Except.ok r :=
    ⟨_, by simp only [findWithFilter]; rw [if_neg hskip]⟩
  have hr' := hr
  simp only [findWithFilter] at hr'
  rw [if_neg hskip] at hr'
  simp only [Except.ok.injEq] at hr'
  subst hr'
  refine ⟨_, hr, ?_, ?_, ?_, ?_⟩
  · exact length_sortBy _ _
  · rfl
  · dsimp only
    rw [if_neg hl0, List.length_take]
    exact min_le_left _ _
  · dsimp only
    rw [if_neg hl0]
    exact ⟨_, rfl, (ceil_div_spec _ _ hl).1, (ceil_div_spec _ _ hl).2⟩

/-- Witness for `findWithFilter_pagination_spec` at the default options and
a one-document store. -/
theorem findWithFilter_pagination_spec_witness :
    (1 ≤ (({} : FilterOptions).page.getD 1)) ∧
    (1 ≤ (({} : FilterOptions).limit.getD 10)) ∧
    ∃ r, findWithFilter ([] : List PropertyDoc) none {} = Except.ok r ∧
      r.pagination.total =
        (([] : List PropertyDoc).filter (matchProperty none ({} : FilterOptions).filters)).length ∧
      r.pagination.limit = ({} : FilterOptions).limit.getD 10 ∧
      r.properties.length ≤ ({} : FilterOptions).limit.getD 10 ∧
      ∃ tp, r.pagination.totalPages = some tp ∧
        r.pagination.total ≤ (({} : FilterOptions).limit.getD 10) * tp ∧
        (({} : FilterOptions).limit.getD 10) * tp <
          r.pagination.total + ({} : FilterOptions).limit.getD 10 :=
  ⟨by decide, by decide,
    findWithFilter_pagination_spec [] none {} (by decide) (by decide)⟩

/-- C8 counterexample: `page = 0` is not coerced to `1`; the computed skip
`(0 - 1) * 10 = -10` is negative and the store query fails, so the engine
raises instead of falling back to a sane default. -/
theorem findWithFilter_page_zero_raises :
    findWithFilter ([] : List PropertyDoc) none { page := some 0 } =
      Except.error "skip must not be negative" := by
  rfl

/-- C8 (amended): the defaults `page = 1`, `limit = 10` apply only when the
parameter is absent.  Whenever the effective page is at least 1 the engine
itself never raises; but a supplied page below 1 together with a positive
effective limit yields a negative skip and a failing store query. -/
theorem findWithFilter_raises_iff_bad_page (db : List PropertyDoc)
    (query : Option String) (opts : FilterOptions) :
    (1 ≤ opts.page.getD 1 → ∃ r, findWithFilter db query opts = Except.ok r) ∧
    (opts.page.getD 1 < 1 → 1 ≤ opts.limit.getD 10 →
      findWithFilter db query opts = Except.error "skip must not be negative") := by
  constructor
  · intro hp
    have hskip : ¬ ((opts.page.getD 1 - 1) * ((opts.limit.getD 10 : Nat) : Int) < 0) := by
      have h1 : (0 : Int) ≤ opts.page.getD 1 - 1 := by omega
      have h2 : (0 : Int) ≤ ((opts.limit.getD 10 : Nat) : Int) := Int.ofNat_nonneg _
      exact not_lt.mpr (mul_nonneg h1 h2)
    exact ⟨_, by simp only [findWithFilter]; rw [if_neg hskip]⟩
  · intro hp hl
    have hskip : (opts.page.getD 1 - 1) * ((opts.limit.getD 10 : Nat) : Int) < 0 := by
      have h1 : opts.page.getD 1 - 1 < 0 := by omega
      have h2 : (0 : Int) < ((opts.limit.getD 10 : Nat) : Int) := by
        exact_mod_cast hl
      exact mul_neg_of_neg_of_pos h1 h2
    simp only [findWithFilter]
    rw [if_pos hskip]

/-- Witness for `findWithFilter_raises_iff_bad_page` at `page = 0`. -/
theorem findWithFilter_raises_iff_bad_page_witness :
    (1 ≤ (({ page := some 0 } : FilterOptions).page.getD 1) →
      ∃ r, findWithFilter ([] : List PropertyDoc) none { page := some 0 } = Except.ok r) ∧
    ((({ page := some 0 } : FilterOptions).page.getD 1) < 1 →
      1 ≤ (({ page := some 0 } : FilterOptions).limit.getD 10) →
      findWithFilter ([] : List PropertyDoc) none { page := some 0 } =
        Except.error "skip must not be negative") :=
  findWithFilter_raises_iff_bad_page [] none { page := some 0 }

end PropertyM

/-! ## List-request parameters and cache keys

Every list handler destructures `req.query` into
`query, page, limit, sort, fields, ...filters` and builds its cache key as
`<entity>:` followed by `JSON.stringify` of that object.  The serialisation
below is a deterministic stand-in for `JSON.stringify` (absent parameters
are dropped, exactly as `JSON.stringify` drops `undefined` values); the
claims depend only on determinism and on the `<entity>:` prefix. -/

/-- A stored `User` document.  `password` holds the bcrypt hash written by
the pre-save hook; `preferences` is the nested preferences object kept as
key/value pairs so the spread-merge of `updateUserPreferences` is exact. -/
structure UserDoc where
  id : Nat
  tenant : Nat
  name : String
  email : String
  password : String
  phone : String
  role : String
  emailVerified : Bool
  preferences : List (String × String)
  isActive : Bool
  createdAt : Nat
  deriving Repr, DecidableEq

/-- A `User` document as loaded by a query: the schema marks `password`
with `select: false`, so `password` is present (`some`) only when the query
adds `.select('+password')`. -/
structure LoadedUser where
  id : Nat
  tenant : Nat
  name : String
  email : String
  password : Option String
  phone : String
  role : String
  emailVerified : Bool
  preferences : List (String × String)
  isActive : Bool
  createdAt : Nat
  deriving Repr, DecidableEq

/-- Load a stored user under the default projection (`withPassword = false`)
or with `.select('+password')` (`withPassword = true`). -/
def loadUser (u : UserDoc) (withPassword : Bool) : LoadedUser :=
  { id := u.id, tenant := u.tenant, name := u.name, email := u.email
    password := if withPassword then some u.password else none
    phone := u.phone, role := u.role, emailVerified := u.emailVerified
    preferences := u.preferences, isActive := u.isActive, createdAt := u.createdAt }

namespace UserM

/-- Field access for the equality filters of `User.findWithFilter`. -/
def userField (u : UserDoc) : String → Option String
  | "tenant" => some (toString u.tenant)
  | "name" => some u.name
  | "email" => some u.email
  | "phone" => some u.phone
  | "role" => some u.role
  | "emailVerified" => some (toString u.emailVerified)
  | "isActive" => some (toString u.isActive)
  | _ => none

/-- The `queryObj` of `User.findWithFilter`: equality filters plus the
free-text `$or` over name / email / phone. -/
def matchUser (query : Option String) (filters : List (String × String))
    (u : UserDoc) : Bool :=
  (filters.all (fun kv => userField u kv.1 == some kv.2)) &&
  (match query with
   | none => true
   | some q =>
     if q.isEmpty then true
     else strContainsCI u.name q || strContainsCI u.email q ||
          strContainsCI u.phone q)

/-- `.sort(...)` for users, default `'-createdAt'`. -/
def sortLe (sort : Option String) (a b : UserDoc) : Bool :=
  let s := sort.getD "-createdAt"
  let (desc, field) :=
    match s.data with
    | '-' :: rest => (true, String.mk rest)
    | _ => (false, s)
  if desc then
    match field with
    | "createdAt" => decide (b.createdAt ≤ a.createdAt)
    | "name" => decide (b.name ≤ a.name)
    | "email" => decide (b.email ≤ a.email)
    | _ => true
  else
    match field with
    | "createdAt" => decide (a.createdAt ≤ b.createdAt)
    | "name" => decide (a.name ≤ b.name)
    | "email" => decide (a.email ≤ b.email)
    | _ => true

structure FindResult where
  users : List LoadedUser
  pagination : Pagination
  deriving Repr, DecidableEq

/-- `User.findWithFilter`: same shape as the property version; the default
projection excludes the `select: false` password field. -/
def findWithFilter (db : List UserDoc) (query : Option String)
    (opts : FilterOptions) : Except String FindResult :=
  let page : Int := opts.page.getD 1
  let limit : Nat := opts.limit.getD 10
  let matched := sortBy (sortLe opts.sort) (db.filter (matchUser query opts.filters))
  let skip : Int := (page - 1) * (limit : Int)
  if skip < 0 then
    Except.error "skip must not be negative"
  else
    let window := matched.drop skip.toNat
    let docs := if limit = 0 then window else window.take limit
    Except.ok
      { users := docs.map (fun u => loadUser u false)
        pagination :=
          { page := page
            limit := limit
            total := matched.length
            totalPages :=
              if limit = 0 then none else some ((matched.length + limit - 1) / limit) } }

end UserM

namespace UserC

end UserC

/-! ## Property controller (`src/controllers/propertyController.js`) -/

namespace PropC

end PropC

/-! ## C1: cross-tenant access on detail read / update / delete -/

/-- Model of the bcrypt collaborator: `hash` tags the password, `compare`
checks the tag.  `compare` is given the *selected* password field of the
loaded document; when the query did not select it (the schema says
`select: false`), bcryptjs rejects, which the handler surfaces as a 500. -/
def bcryptHash (pw : String) : String := "bcrypt$" ++ pw

def bcryptCompare (entered stored : String) : Bool := stored == bcryptHash entered

/-- Model of `jwt.sign(\x7b id \x7d, secret, ...)`. -/
def generateToken (id : Nat) : String := "jwt." ++ toString id

/-- The auth controller's response envelope. -/
structure AuthResp where
  status : Nat
  success : Bool
  message : Option String := none
  token : Option String := none
  deriving Repr, DecidableEq

namespace AuthC

/-- The instance-method table of the compiled `User` model: the schema
defines exactly one method, `matchPassword` (part_004 lines 110–113).  The
argument is the selected password field of the loaded document.  Looking up
any other name — such as the `comparePassword` the login handler calls —
yields nothing, which in JS is the `TypeError: user.comparePassword is not
a function` the handler's catch turns into a 500. -/
def userInstanceMethod : String → Option (Option String → String → Except String Bool)
  | "matchPassword" =>
    some (fun stored entered =>
      match stored with
      | some h => Except.ok (bcryptCompare entered h)
      | none => Except.error "Illegal arguments: string, undefined")
  | _ => none

/-- The input actually handed to `User.create` by a caller, keyed by the
schema paths of `userSchema`; unknown body keys (`username`, `propertyId`)
are not schema paths and are dropped by mongoose. -/
structure UserCreateInput where
  tenant : Option Nat := none
  name : Option String := none
  email : Option String := none
  password : Option String := none
  role : Option String := none
  deriving Repr, DecidableEq

/-- `User.create` under `userSchema`: required-path validation (`tenant`,
`name`, `email`, `password` with `minlength: 6`, `role` enum with default
`resident`) followed by the pre-save bcrypt hash. -/
def userCreate (nextId : Nat) (input : UserCreateInput) : Except String UserDoc :=
  match input.tenant, input.name, input.email, input.password with
  | none, _, _, _ => Except.error "User validation failed: tenant: Path `tenant` is required."
  | _, none, _, _ => Except.error "User validation failed: name: Path `name` is required."
  | _, _, none, _ => Except.error "User validation failed: email: Path `email` is required."
  | _, _, _, none => Except.error "User validation failed: password: Path `password` is required."
  | some t, some nm, some em, some pw =>
    if pw.length < 6 then
      Except.error "User validation failed: password: shorter than the minimum allowed length (6)."
    else
      let role := input.role.getD "resident"
      if role ∈ ["admin", "manager", "staff", "resident"] then
        Except.ok
          { id := nextId, tenant := t, name := nm, email := em.toLower,
            password := bcryptHash pw, phone := "", role := role,
            emailVerified := false, preferences := [], isActive := true,
            createdAt := 0 }
      else
        Except.error "User validation failed: role: is not a valid enum value."

/-- The request body of `POST /api/auth/register`. -/
structure RegisterBody where
  username : Option String := none
  email : String
  password : String
  role : Option String := none
  propertyId : Option Nat := none
  deriving Repr, DecidableEq

/-- `register` (auth controller): duplicate-email check, then
`User.create(\x7b username, email, password, role, propertyId \x7d)`.
`username` and `propertyId` are not `userSchema` paths, and the schema's
required `name` and `tenant` are never supplied, so the create step is what
decides the outcome. -/
def register (db : List UserDoc) (nextId : Nat) (body : RegisterBody) :
    AuthResp × List UserDoc :=
  match db.find? (fun u => u.email == body.email) with
  | some _ =>
    ({ status := 400, success := false,
       message := some "User dengan email ini sudah terdaftar." }, db)
  | none =>
    match userCreate nextId
        { tenant := none, name := none, email := some body.email,
          password := some body.password, role := body.role } with
    | Except.error _ =>
      ({ status := 500, success := false,
         message := some "Terjadi kesalahan pada server." }, db)
    | Except.ok u =>
      ({ status := 201, success := true, token := some (generateToken u.id) },
       u :: db)

/-- `login` (auth controller): `User.findOne(\x7b email \x7d)` — without
`.select('+password')`, so the loaded document's password field is absent —
then a call to `user.comparePassword(password)`, resolved against the
model's instance-method table. -/
def login (db : List UserDoc) (email password : String) : AuthResp :=
  match db.find? (fun u => u.email == email) with
  | none =>
    { status := 401, success := false, message := some "Email atau password salah." }
  | some u =>
    match userInstanceMethod "comparePassword" with
    | none =>
      { status := 500, success := false,
        message := some "Terjadi kesalahan pada server." }
    | some m =>
      match m (loadUser u false).password password with
      | Except.error _ =>
        { status := 500, success := false,
          message := some "Terjadi kesalahan pada server." }
      | Except.ok true =>
        { status := 200, success := true, token := some (generateToken u.id) }
      | Except.ok false =>
        { status := 401, success := false,
          message := some "Email atau password salah." }

end AuthC

/-- Fixture: a correctly stored account for `a@x.com` with password
`secret1` (as the user controller's create path would persist it). -/
def storedA : UserDoc :=
  { id := 1, tenant := 1, name := "A", email := "a@x.com",
    password := bcryptHash "secret1", phone := "", role := "resident",
    emailVerified := false, preferences := [], isActive := true, createdAt := 0 }

/-- C4: evaluating the register/login scenario on the code.  Registering a
fresh `a@x.com` answers 500, not 201 (the create omits the schema-required
`name` and `tenant`, sending the non-schema `username`/`propertyId`
instead), and the store stays empty.  Even against a correctly stored
account, logging in with the right password answers 500, not 200, and with
a wrong password 500, not 401: the handler calls `user.comparePassword`,
but the schema defines only `matchPassword`, so the call throws before any
password check. -/
theorem auth_scenario_answers_500 :
    (AuthC.register [] 1 { email := "a@x.com", password := "secret1" }).1.status = 500 ∧
    (AuthC.register [] 1 { email := "a@x.com", password := "secret1" }).2 = [] ∧
    AuthC.login [storedA] "a@x.com" "secret1" =
      { status := 500, success := false,
        message := some "Terjadi kesalahan pada server." } ∧
    AuthC.login [storedA] "a@x.com" "wrong" =
      { status := 500, success := false,
        message := some "Terjadi kesalahan pada server." } := by
  refine ⟨rfl, rfl, rfl, rfl⟩

/-! ## Complaint model and controller (unnamed sources) -/

namespace ComplaintC

end ComplaintC

/-! ## C9: feedback accepted once, and only on a resolved complaint -/

namespace AnnC

end AnnC

/-! ## C2: cache hits are verbatim, but not state-transparent -/

namespace PropC

end PropC

/-! ## C5: the property stats read is neither tenant-scoped nor tenant-keyed -/

namespace UserC

end UserC

namespace ComplaintC

end ComplaintC

end ResiSmart
